import Mathlib

/-!
# NimeStreamAPI: token service and auth controller

A shallow embedding of `internal/service/system_service/token_service.go` and of the
handlers `ForgotPassword` and `GoogleCallback` of
`internal/delivery/http/controller/auth_controller.go`.

Conventions of the embedding.

* The token table behind `s.DB` is a list of rows, oldest first.  Every gorm statement
  either fails as a whole (the table is left as it was and the error is returned) or
  takes effect as a whole; which of the two happens is an input of the model
  (`Option Err`, `none` meaning that the statement did not fail).
* A Go `error` result is `Option Err` or `Outcome`/`Except`; a panic of
  `uuid.MustParse` is the outcome `Outcome.panic`.
* Instants are integers (nanoseconds since the Unix epoch); `time.Duration` products
  wrap to 64 bits.
* Libraries and packages whose code is not part of the service (google/uuid, jwt,
  `config`, `utils.VerifyToken`, the validator, the user service, oauth2, net/http,
  the email service) are parameters.
* Logging (`s.Log.Errorf`) changes neither results nor the table and is left out.
-/

set_option linter.dupNamespace false

namespace NimeStream

/-! ## Errors and results -/

/-- A Go `error` value: a `*fiber.Error` made by `fiber.NewError`, or any other error
(gorm, jwt, validator, oauth2, net/http, encoding/json, the user and email services). -/
inductive Err where
  | fiber (Code : Nat) (Message : String)
  | other (Message : String)
deriving DecidableEq, Repr

/-- The value `gorm.ErrRecordNotFound`, returned by `First` when no row matches. -/
def ErrRecordNotFound : Err := Err.other "record not found"

/-- Result of a Go call that returns `(value, error)` and may panic. -/
inductive Outcome (α : Type) where
  | ok (a : α)
  | fail (e : Err)
  | panic
deriving DecidableEq, Repr

deriving instance DecidableEq for Except

/-! ## Data model -/

/-- A row of the token table (`token_model.Token`): the columns the service writes. -/
structure Token (U : Type) where
  Token : String
  UserID : U
  TokenType : String
  Expires : Int
deriving DecidableEq, Repr

/-- The user record (`user_model.User`), with the fields named in `user_convert.go`. -/
structure User (U : Type) where
  ID : U
  Name : String
  Email : String
  Password : String
  Role : String
  VerifiedEmail : Bool
deriving DecidableEq, Repr

/-- The claims set built by `GenerateToken`. -/
structure Claims where
  sub : String
  iat : Int
  exp : Int
  type : String
deriving DecidableEq, Repr

/-- One token with its expiry (`res.TokenExpires`). -/
structure TokenExpires where
  Token : String
  Expires : Int
deriving DecidableEq, Repr

/-- The pair returned by `GenerateAuthTokens` (`res.Tokens`). -/
structure Tokens where
  Access : TokenExpires
  Refresh : TokenExpires
deriving DecidableEq, Repr

/-- The request body of the forgot-password route (`auth_request_dto.ForgotPassword`). -/
structure auth_request_dto.ForgotPassword where
  Email : String
deriving DecidableEq, Repr

/-- The values of package `config` read by the token service. -/
structure Config where
  JWTSecret : String
  JWTAccessExp : Int
  JWTRefreshExp : Int
  JWTResetPasswordExp : Int
  JWTVerifyEmailExp : Int
  TokenTypeAccess : String
  TokenTypeRefresh : String
  TokenTypeResetPassword : String
  TokenTypeVerifyEmail : String

/-- The receiver of the token service methods: what `tokenService` and the packages it
imports provide.  `Parse` is `uuid.Parse` (`uuid.MustParse` panics where it is `none`),
`IDString` is `UUID.String`, `SignedString secret claims` is HS256 signing of a claims
set, `VerifyToken tokenStr secret tokenType` is `utils.VerifyToken`, `Validate` is
`s.Validate.Struct` and `GetUserByEmail` is `s.UserService.GetUserByEmail`. -/
structure tokenService (U : Type) where
  config : Config
  Parse : String → Option U
  IDString : U → String
  SignedString : String → Claims → Except Err String
  VerifyToken : String → String → String → Except Err String
  Validate : auth_request_dto.ForgotPassword → Option Err
  GetUserByEmail : String → Except Err (User U)

/-! ## Time -/

/-- Two-complement wrap of an integer to 64 bits (`int64` arithmetic). -/
def wrap64 (x : Int) : Int := (x + 2 ^ 63) % 2 ^ 64 - 2 ^ 63

/-- The constant `time.Minute`, in nanoseconds. -/
def Minute : Int := 60000000000

/-- The constant `time.Hour`, in nanoseconds. -/
def Hour : Int := 3600000000000

/-- The method `Time.Add`. -/
def Add (t d : Int) : Int := t + d

/-- The method `Time.Unix`: whole seconds since the epoch. -/
def Unix (t : Int) : Int := t / 1000000000

/-! ## The gorm statements used by the service -/

/-- Statement `DB.Where(p).Delete(&Token{})`: removes every matching row. -/
def dbDelete {U : Type} (dbErr : Option Err) (p : Token U → Bool) (db : List (Token U)) :
    List (Token U) × Option Err :=
  match dbErr with
  | some e => (db, some e)
  | none => (db.filter (fun r => !p r), none)

/-- Statement `DB.Create(row)`: adds the row. -/
def dbCreate {U : Type} (dbErr : Option Err) (row : Token U) (db : List (Token U)) :
    List (Token U) × Option Err :=
  match dbErr with
  | some e => (db, some e)
  | none => (db ++ [row], none)

/-- Statement `DB.Where(p).First(&row)`: the first matching row, or
`gorm.ErrRecordNotFound`. -/
def dbFirst {U : Type} (dbErr : Option Err) (p : Token U → Bool) (db : List (Token U)) :
    Except Err (Token U) :=
  match dbErr with
  | some e => Except.error e
  | none =>
    match db.find? p with
    | some r => Except.ok r
    | none => Except.error ErrRecordNotFound

/-- Comparison `user_id = ?` of the uuid column with a text argument: by value. -/
def userIDIs {U : Type} [DecidableEq U] (s : tokenService U) (userID : String)
    (r : Token U) : Bool :=
  decide (s.Parse userID = some r.UserID)

/-! ## token_service.go -/

/-- Method `GenerateToken`; `now` is the reading of `time.Now()` used for `iat`. -/
def GenerateToken {U : Type} (s : tokenService U) (now : Int) (userID : String)
    (expires : Int) (tokenType : String) : Except Err String :=
  s.SignedString s.config.JWTSecret
    { sub := userID, iat := Unix now, exp := Unix expires, type := tokenType }

/-- Method `DeleteToken`: `Where("type = ? AND user_id = ?", tokenType, userID).Delete`. -/
def DeleteToken {U : Type} [DecidableEq U] (s : tokenService U) (dbErr : Option Err)
    (db : List (Token U)) (tokenType userID : String) : List (Token U) × Option Err :=
  dbDelete dbErr (fun r => decide (r.TokenType = tokenType) && userIDIs s userID r) db

/-- Method `DeleteAllToken`: `Where("user_id = ?", userID).Delete`. -/
def DeleteAllToken {U : Type} [DecidableEq U] (s : tokenService U) (dbErr : Option Err)
    (db : List (Token U)) (userID : String) : List (Token U) × Option Err :=
  dbDelete dbErr (fun r => userIDIs s userID r) db

/-- Method `SaveToken`: `delErr` and `insErr` are the outcomes of its two statements. -/
def SaveToken {U : Type} [DecidableEq U] (s : tokenService U) (delErr insErr : Option Err)
    (db : List (Token U)) (token userID tokenType : String) (expires : Int) :
    List (Token U) × Outcome Unit :=
  match DeleteToken s delErr db tokenType userID with
  | (db1, some e) => (db1, Outcome.fail e)
  | (db1, none) =>
    match s.Parse userID with
    | none => (db1, Outcome.panic)
    | some u =>
      match dbCreate insErr
          { Token := token, UserID := u, TokenType := tokenType, Expires := expires } db1 with
      | (db2, some e) => (db2, Outcome.fail e)
      | (db2, none) => (db2, Outcome.ok ())

/-- Method `GetTokenByUserID`: `qErr` is the outcome of its query. -/
def GetTokenByUserID {U : Type} [DecidableEq U] (s : tokenService U) (qErr : Option Err)
    (db : List (Token U)) (tokenStr : String) : Except Err (Token U) :=
  match s.VerifyToken tokenStr s.config.JWTSecret s.config.TokenTypeRefresh with
  | Except.error err => Except.error err
  | Except.ok userID =>
    dbFirst qErr (fun r => decide (r.Token = tokenStr) && userIDIs s userID r) db

/-- Method `GenerateAuthTokens`: `t0 .. t3` are the four successive readings of
`time.Now()`, `delErr` and `insErr` the outcomes of the two statements of `SaveToken`. -/
def GenerateAuthTokens {U : Type} [DecidableEq U] (s : tokenService U) (t0 t1 t2 t3 : Int)
    (delErr insErr : Option Err) (db : List (Token U)) (user : User U) :
    List (Token U) × Outcome Tokens :=
  let accessTokenExpires := Add t0 (wrap64 (Minute * s.config.JWTAccessExp))
  match GenerateToken s t1 (s.IDString user.ID) accessTokenExpires s.config.TokenTypeAccess with
  | Except.error err => (db, Outcome.fail err)
  | Except.ok accessToken =>
    let refreshTokenExpires := Add t2 (wrap64 (wrap64 (Hour * 24) * s.config.JWTRefreshExp))
    match GenerateToken s t3 (s.IDString user.ID) refreshTokenExpires
        s.config.TokenTypeRefresh with
    | Except.error err => (db, Outcome.fail err)
    | Except.ok refreshToken =>
      match SaveToken s delErr insErr db refreshToken (s.IDString user.ID)
          s.config.TokenTypeRefresh refreshTokenExpires with
      | (db1, Outcome.fail err) => (db1, Outcome.fail err)
      | (db1, Outcome.panic) => (db1, Outcome.panic)
      | (db1, Outcome.ok _) =>
        (db1, Outcome.ok
          { Access := { Token := accessToken, Expires := accessTokenExpires },
            Refresh := { Token := refreshToken, Expires := refreshTokenExpires } })

/-- Method `GenerateResetPasswordToken`: `t0` and `t1` are the two readings of
`time.Now()`, `delErr` and `insErr` the outcomes of the two statements of `SaveToken`. -/
def GenerateResetPasswordToken {U : Type} [DecidableEq U] (s : tokenService U) (t0 t1 : Int)
    (delErr insErr : Option Err) (db : List (Token U))
    (req : auth_request_dto.ForgotPassword) :
    List (Token U) × Outcome String :=
  match s.Validate req with
  | some err => (db, Outcome.fail err)
  | none =>
    match s.GetUserByEmail req.Email with
    | Except.error err => (db, Outcome.fail err)
    | Except.ok user =>
      let expires := Add t0 (wrap64 (Minute * s.config.JWTResetPasswordExp))
      match GenerateToken s t1 (s.IDString user.ID) expires
          s.config.TokenTypeResetPassword with
      | Except.error err => (db, Outcome.fail err)
      | Except.ok resetPasswordToken =>
        match SaveToken s delErr insErr db resetPasswordToken (s.IDString user.ID)
            s.config.TokenTypeResetPassword expires with
        | (db1, Outcome.fail err) => (db1, Outcome.fail err)
        | (db1, Outcome.panic) => (db1, Outcome.panic)
        | (db1, Outcome.ok _) => (db1, Outcome.ok resetPasswordToken)

/-! ## Two concurrent `SaveToken` calls -/

/-- The statements of one `SaveToken` call, in program order, each taken as succeeding:
the delete of `DeleteToken`, then (unless `uuid.MustParse` panics) the create. -/
def SaveTokenSteps {U : Type} [DecidableEq U] (s : tokenService U)
    (token userID tokenType : String) (expires : Int) :
    List (List (Token U) → List (Token U)) :=
  match s.Parse userID with
  | none => [fun db => (DeleteToken s none db tokenType userID).1]
  | some u =>
    [fun db => (DeleteToken s none db tokenType userID).1,
     fun db => (dbCreate none
        { Token := token, UserID := u, TokenType := tokenType, Expires := expires } db).1]

/-- Runs two calls statement by statement: `false` lets the first call execute its next
statement, `true` the second; a call that has finished ignores its turn. -/
def runInterleaved {α : Type} : List Bool → List (α → α) → List (α → α) → α → α
  | [], _, _, x => x
  | false :: sch, f :: p, q, x => runInterleaved sch p q (f x)
  | true :: sch, p, f :: q, x => runInterleaved sch p q (f x)
  | _ :: sch, p, q, x => runInterleaved sch p q x

/-- The six interleavings of two calls of two statements each. -/
def schedules : List (List Bool) :=
  [[false, false, true, true], [false, true, false, true], [false, true, true, false],
   [true, false, false, true], [true, false, true, false], [true, true, false, false]]

/-- The two interleavings in which one call runs to its end before the other starts. -/
def isSerial (sch : List Bool) : Bool :=
  decide (sch = [false, false, true, true]) || decide (sch = [true, true, false, false])

/-! ## auth_controller.go -/

/-- The methods of interface `system_service.TokenService` that the handlers below call,
as functions of the token table. -/
structure TokenService (U : Type) where
  GenerateAuthTokens : List (Token U) → User U → List (Token U) × Outcome Tokens
  GenerateResetPasswordToken :
    List (Token U) → auth_request_dto.ForgotPassword → List (Token U) × Outcome String

/-- What one request sees of its surroundings: the successive readings of `time.Now()`
and the outcomes of the successive statements sent to the database. -/
structure Surroundings where
  now : Nat → Int
  stmt : Nat → Option Err

/-- Constructor `NewTokenService`: the token service of this file behind the interface. -/
def NewTokenService {U : Type} [DecidableEq U] (s : tokenService U) (o : Surroundings) :
    TokenService U where
  GenerateAuthTokens := fun db user =>
    GenerateAuthTokens s (o.now 0) (o.now 1) (o.now 2) (o.now 3) (o.stmt 0) (o.stmt 1) db user
  GenerateResetPasswordToken := fun db req =>
    GenerateResetPasswordToken s (o.now 0) (o.now 1) (o.stmt 0) (o.stmt 1) db req

/-- The receiver of the handlers: the services of `AuthController` and the packages the
handlers call.  `G` is the type `user_dto_request.GoogleLogin`.  `Exchange code` is
`config.GoogleConfig().Exchange` (its result is the access token of the oauth2 token),
`NewRequest url` is the error of `http.NewRequestWithContext` for a GET of `url`,
`Do url` is `http.DefaultClient.Do` (its result is what `io.ReadAll` of the response body
gives), `Unmarshal` is `json.Unmarshal` into a `GoogleLogin`. -/
structure AuthController (U G : Type) where
  TokenService : TokenService U
  CreateGoogleUser : G → Except Err (User U)
  SendResetPasswordEmail : String → String → Option Err
  IDString : U → String
  Exchange : String → Except Err String
  NewRequest : String → Option Err
  Do : String → Except Err (Except Err String)
  Unmarshal : String → Except Err G

/-- A call made by a handler to a collaborator outside the process. -/
inductive Call (G : Type) where
  | Exchange (code : String)
  | Get (url : String)
  | CreateGoogleUser (googleUser : G)
  | SendResetPasswordEmail (email token : String)
deriving DecidableEq, Repr

/-- A JSON body written by a handler (`response.Common`, `response.SuccessWithTokens`). -/
inductive Reply where
  | Common (Code : Nat) (Status Message : String)
  | SuccessWithTokens (Code : Nat) (Status Message User_id : String) (Tokens : Tokens)
deriving DecidableEq, Repr

/-- What a handler hands back to fiber: a written response (the handler returned `nil`),
a returned error, or a panic. -/
inductive HandlerResult where
  | response (status : Nat) (body : Reply)
  | error (e : Err)
  | panic
deriving DecidableEq, Repr

/-- The constant `fiber.StatusOK`. -/
def StatusOK : Nat := 200

/-- The constant `fiber.StatusBadRequest`. -/
def StatusBadRequest : Nat := 400

/-- The constant `fiber.StatusUnauthorized`. -/
def StatusUnauthorized : Nat := 401

/-- Handler `ForgotPassword`; `body` is the result of `c.BodyParser(req)`.  Returns the
token table, the collaborator calls made (oldest first) and the handler result. -/
def ForgotPassword {U G : Type} (a : AuthController U G)
    (body : Except Err auth_request_dto.ForgotPassword) (db : List (Token U)) :
    List (Token U) × List (Call G) × HandlerResult :=
  match body with
  | Except.error _ =>
    (db, [], HandlerResult.error (Err.fiber StatusBadRequest "Invalid request body"))
  | Except.ok req =>
    match a.TokenService.GenerateResetPasswordToken db req with
    | (db1, Outcome.fail err) => (db1, [], HandlerResult.error err)
    | (db1, Outcome.panic) => (db1, [], HandlerResult.panic)
    | (db1, Outcome.ok resetPasswordToken) =>
      match a.SendResetPasswordEmail req.Email resetPasswordToken with
      | some errEmail =>
        (db1, [Call.SendResetPasswordEmail req.Email resetPasswordToken],
          HandlerResult.error errEmail)
      | none =>
        (db1, [Call.SendResetPasswordEmail req.Email resetPasswordToken],
          HandlerResult.response StatusOK
            (Reply.Common StatusOK "success"
              "A password reset link has been sent to your email address."))

/-- What `GoogleCallback` reads from the request: `c.Query("state")`,
`c.Cookies("oauth_state")` and `c.Query("code")`. -/
structure CallbackRequest where
  state : String
  storedState : String
  code : String
deriving DecidableEq, Repr

/-- Handler `GoogleCallback`.  Returns the token table, the collaborator calls made
(oldest first) and the handler result. -/
def GoogleCallback {U G : Type} (a : AuthController U G) (req : CallbackRequest)
    (db : List (Token U)) : List (Token U) × List (Call G) × HandlerResult :=
  if req.state ≠ req.storedState then
    (db, [], HandlerResult.error (Err.fiber StatusUnauthorized "States don\x27t Match!"))
  else
    match a.Exchange req.code with
    | Except.error err => (db, [Call.Exchange req.code], HandlerResult.error err)
    | Except.ok accessToken =>
      let url := "https://www.googleapis.com/oauth2/v2/userinfo?access_token=" ++ accessToken
      match a.NewRequest url with
      | some err => (db, [Call.Exchange req.code], HandlerResult.error err)
      | none =>
        match a.Do url with
        | Except.error err =>
          (db, [Call.Exchange req.code, Call.Get url], HandlerResult.error err)
        | Except.ok (Except.error err) =>
          (db, [Call.Exchange req.code, Call.Get url], HandlerResult.error err)
        | Except.ok (Except.ok userData) =>
          match a.Unmarshal userData with
          | Except.error errJSON =>
            (db, [Call.Exchange req.code, Call.Get url], HandlerResult.error errJSON)
          | Except.ok googleUser =>
            let calls := [Call.Exchange req.code, Call.Get url, Call.CreateGoogleUser googleUser]
            match a.CreateGoogleUser googleUser with
            | Except.error err => (db, calls, HandlerResult.error err)
            | Except.ok user =>
              match a.TokenService.GenerateAuthTokens db user with
              | (db1, Outcome.fail err) => (db1, calls, HandlerResult.error err)
              | (db1, Outcome.panic) => (db1, calls, HandlerResult.panic)
              | (db1, Outcome.ok tokens) =>
                (db1, calls, HandlerResult.response StatusOK
                  (Reply.SuccessWithTokens StatusOK "success" "Login successfully"
                    (a.IDString user.ID) tokens))

/-- Whether a handler result is the Unauthorized failure (a fiber error of status 401). -/
def isUnauthorized : HandlerResult → Bool
  | HandlerResult.error (Err.fiber code _) => decide (code = StatusUnauthorized)
  | _ => false

/-! ## A concrete instance, used to evaluate the definitions -/

/-- A configuration with the usual type tags. -/
def demoConfig : Config where
  JWTSecret := "secret"
  JWTAccessExp := 30
  JWTRefreshExp := 30
  JWTResetPasswordExp := 10
  JWTVerifyEmailExp := 10
  TokenTypeAccess := "access"
  TokenTypeRefresh := "refresh"
  TokenTypeResetPassword := "resetPassword"
  TokenTypeVerifyEmail := "verifyEmail"

/-- The one registered user of the concrete instance. -/
def demoUser : User Nat where
  ID := 1
  Name := "a"
  Email := "a@x.com"
  Password := "h"
  Role := "user"
  VerifiedEmail := false

/-- A token service over user ids `1` and `2`, written `"u1"` and `"u2"`: signing gives
`"A"` for the access type and `"R"` otherwise, `"R"` verifies as a refresh token of
user `"u1"`, and `a@x.com` is the only registered address. -/
def demoService : tokenService Nat where
  config := demoConfig
  Parse := fun str => if str = "u1" then some 1 else if str = "u2" then some 2 else none
  IDString := fun n => if n = 1 then "u1" else "u2"
  SignedString := fun _ c => if c.type = "access" then Except.ok "A" else Except.ok "R"
  VerifyToken := fun tok _ ty =>
    if tok = "R" ∧ ty = "refresh" then Except.ok "u1" else Except.error (Err.other "invalid")
  Validate := fun _ => none
  GetUserByEmail := fun email =>
    if email = "a@x.com" then Except.ok demoUser
    else Except.error (Err.fiber 404 "User not found")

/-- Surroundings in which the clock stands at zero and no statement fails. -/
def demoSurroundings : Surroundings where
  now := fun _ => 0
  stmt := fun _ => none

/-- A controller around `demoService` whose code exchange always fails. -/
def demoController : AuthController Nat String where
  TokenService := NewTokenService demoService demoSurroundings
  CreateGoogleUser := fun _ => Except.ok demoUser
  SendResetPasswordEmail := fun _ _ => none
  IDString := demoService.IDString
  Exchange := fun _ => Except.error (Err.other "oauth2: cannot fetch token")
  NewRequest := fun _ => none
  Do := fun _ => Except.ok (Except.ok "body")
  Unmarshal := fun body => Except.ok body

/-- A table holding a refresh row of user `1` and a refresh row of user `2`. -/
def demoStore : List (Token Nat) :=
  [{ Token := "old", UserID := 1, TokenType := "refresh", Expires := 5 },
   { Token := "other", UserID := 2, TokenType := "refresh", Expires := 6 }]

/-- A table holding three rows of user `1`, one of each type, and a row of user `2`. -/
def demoStoreAll : List (Token Nat) :=
  [{ Token := "a", UserID := 1, TokenType := "refresh", Expires := 5 },
   { Token := "b", UserID := 2, TokenType := "refresh", Expires := 6 },
   { Token := "c", UserID := 1, TokenType := "resetPassword", Expires := 7 },
   { Token := "d", UserID := 1, TokenType := "verifyEmail", Expires := 8 }]

/-- A table holding the refresh row `"R"` of user `1`. -/
def demoStoreR : List (Token Nat) :=
  [{ Token := "R", UserID := 1, TokenType := "refresh", Expires := 9 }]

/-! ## Lemmas on the statements -/

theorem dbDelete_none {U : Type} (p : Token U → Bool) (db : List (Token U)) :
    dbDelete none p db = (db.filter (fun r => !p r), none) := rfl

theorem dbDelete_some {U : Type} (e : Err) (p : Token U → Bool) (db : List (Token U)) :
    dbDelete (some e) p db = (db, some e) := rfl

theorem filter_not_filter {α : Type} (p : α → Bool) (l : List α) :
    (l.filter (fun r => !p r)).filter p = [] := by
  induction l with
  | nil => rfl
  | cons a l ih =>
    by_cases h : p a = true
    · simp [List.filter_cons, h, ih]
    · simp [List.filter_cons, h, ih]

theorem filter_not_idem {α : Type} (p : α → Bool) (l : List α) :
    (l.filter (fun r => !p r)).filter (fun r => !p r) = l.filter (fun r => !p r) := by
  simp [List.filter_filter]

/-- The four ways a `SaveToken` call can end. -/
theorem SaveToken_eq {U : Type} [DecidableEq U] (s : tokenService U)
    (delErr insErr : Option Err) (db : List (Token U)) (token userID tokenType : String)
    (expires : Int) :
    SaveToken s delErr insErr db token userID tokenType expires =
      match delErr with
      | some e => (db, Outcome.fail e)
      | none =>
        match s.Parse userID with
        | none => ((DeleteToken s none db tokenType userID).1, Outcome.panic)
        | some u =>
          match insErr with
          | some e => ((DeleteToken s none db tokenType userID).1, Outcome.fail e)
          | none =>
            ((DeleteToken s none db tokenType userID).1 ++
              [{ Token := token, UserID := u, TokenType := tokenType, Expires := expires }],
              Outcome.ok ()) := by
  cases delErr with
  | some e => rfl
  | none =>
    cases hp : s.Parse userID with
    | none => simp [SaveToken, DeleteToken, dbDelete, hp]
    | some u =>
      cases insErr with
      | some e => simp [SaveToken, DeleteToken, dbDelete, dbCreate, hp]
      | none => simp [SaveToken, DeleteToken, dbDelete, dbCreate, hp]

/-- After a successful delete no row matches the condition of `DeleteToken`. -/
theorem DeleteToken_none_filter {U : Type} [DecidableEq U] (s : tokenService U)
    (db : List (Token U)) (tokenType userID : String) (u : U)
    (hu : s.Parse userID = some u) :
    ((DeleteToken s none db tokenType userID).1).filter
      (fun r => decide (r.UserID = u ∧ r.TokenType = tokenType)) = [] := by
  have hfun : (fun r : Token U => decide (r.UserID = u ∧ r.TokenType = tokenType)) =
      (fun r => decide (r.TokenType = tokenType) && userIDIs s userID r) := by
    funext r
    simp only [userIDIs, hu, Option.some.injEq]
    by_cases h1 : u = r.UserID
    · by_cases h2 : r.TokenType = tokenType <;> simp [h1, h2]
    · have h3 : ¬ r.UserID = u := fun h => h1 h.symm
      simp [h1, h3]
  rw [hfun]
  exact filter_not_filter _ db

/-- The store left by a `SaveToken` call that returns no error. -/
theorem SaveToken_ok_form {U : Type} [DecidableEq U] (s : tokenService U)
    (delErr insErr : Option Err) (db db' : List (Token U))
    (token userID tokenType : String) (expires : Int) (u : U)
    (hu : s.Parse userID = some u)
    (h : SaveToken s delErr insErr db token userID tokenType expires = (db', Outcome.ok ())) :
    db' = (DeleteToken s none db tokenType userID).1 ++
      [{ Token := token, UserID := u, TokenType := tokenType, Expires := expires }] := by
  rw [SaveToken_eq] at h
  cases delErr with
  | some e => simp at h
  | none =>
    cases insErr with
    | some e => simp [hu] at h
    | none =>
      simp only [hu, Prod.mk.injEq, and_true] at h
      exact h.symm

/-- With a valid user id, a successful `DeleteToken` keeps exactly the rows of the other
(user, type) pairs. -/
theorem DeleteToken_none_eq {U : Type} [DecidableEq U] (s : tokenService U)
    (db : List (Token U)) (tokenType userID : String) (u : U)
    (hu : s.Parse userID = some u) :
    (DeleteToken s none db tokenType userID).1 =
      db.filter (fun r => !decide (r.UserID = u ∧ r.TokenType = tokenType)) := by
  simp only [DeleteToken, dbDelete_none]
  congr 1
  funext r
  simp only [userIDIs, hu, Option.some.injEq]
  by_cases h1 : u = r.UserID
  · by_cases h2 : r.TokenType = tokenType <;> simp [h1, h2]
  · have h3 : ¬ r.UserID = u := fun h => h1 h.symm
    simp [h1, h3]

/-- Running the statements of `SaveTokenSteps` one after the other gives the store that
`SaveToken` leaves when no statement fails. -/
theorem SaveToken_steps {U : Type} [DecidableEq U] (s : tokenService U)
    (db : List (Token U)) (token userID tokenType : String) (expires : Int) :
    (SaveToken s none none db token userID tokenType expires).1 =
      (SaveTokenSteps s token userID tokenType expires).foldl (fun d f => f d) db := by
  rw [SaveToken_eq]
  cases hp : s.Parse userID with
  | none => simp [SaveTokenSteps, hp]
  | some u => simp [SaveTokenSteps, hp, dbCreate]

/-- The list `schedules` holds every interleaving: the schedules of four turns, two for
each call. -/
theorem schedules_complete (sch : List Bool) :
    sch ∈ schedules ↔ sch.length = 4 ∧ sch.count true = 2 := by
  constructor
  · intro h
    simp only [schedules, List.mem_cons, List.mem_singleton, List.not_mem_nil, or_false] at h
    rcases h with rfl | rfl | rfl | rfl | rfl | rfl <;> decide
  · rintro ⟨hl, hc⟩
    match sch, hl with
    | [a, b, c, d], _ =>
      revert hc
      revert a b c d
      decide

/-! ## Token store -/

/-- C1: a `SaveToken` call for a valid user id that returns no error leaves exactly one
row with that (user id, type), and it carries the token value and expiry passed in. -/
theorem SaveToken_ok_exactly_one {U : Type} [DecidableEq U] (s : tokenService U)
    (delErr insErr : Option Err) (db db' : List (Token U))
    (token userID tokenType : String) (expires : Int) (u : U)
    (hu : s.Parse userID = some u)
    (h : SaveToken s delErr insErr db token userID tokenType expires = (db', Outcome.ok ())) :
    db'.filter (fun r => decide (r.UserID = u ∧ r.TokenType = tokenType)) =
      [{ Token := token, UserID := u, TokenType := tokenType, Expires := expires }] := by
  have hform := SaveToken_ok_form s delErr insErr db db' token userID tokenType expires u hu h
  have hold := DeleteToken_none_filter s db tokenType userID u hu
  rw [hform, List.filter_append, hold]
  simp

/-- C1, evaluated: saving `"new"` for user `"u1"` over an older refresh row and a row of
another user. -/
theorem SaveToken_ok_exactly_one_witness :
    demoService.Parse "u1" = some 1 ∧
    SaveToken demoService none none demoStore "new" "u1" "refresh" 9 =
      ([{ Token := "other", UserID := 2, TokenType := "refresh", Expires := 6 },
        { Token := "new", UserID := 1, TokenType := "refresh", Expires := 9 }],
        Outcome.ok ()) ∧
    List.filter (fun r : Token Nat => decide (r.UserID = 1 ∧ r.TokenType = "refresh"))
        [{ Token := "other", UserID := 2, TokenType := "refresh", Expires := 6 },
         { Token := "new", UserID := 1, TokenType := "refresh", Expires := 9 }] =
      [{ Token := "new", UserID := 1, TokenType := "refresh", Expires := 9 }] :=
  ⟨by decide, by decide,
    SaveToken_ok_exactly_one demoService none none demoStore _ "new" "u1" "refresh" 9 1
      (by decide) (by decide)⟩

/-- C8: when the store does not fail, `DeleteToken` returns no error whether or not a
matching row exists, leaves no row with that (type, user id), and a second call returns
no error and leaves the store as the first call left it. -/
theorem DeleteToken_idempotent {U : Type} [DecidableEq U] (s : tokenService U)
    (db : List (Token U)) (tokenType userID : String) :
    (DeleteToken s none db tokenType userID).2 = none ∧
    (∀ r ∈ (DeleteToken s none db tokenType userID).1,
      ¬ (r.TokenType = tokenType ∧ s.Parse userID = some r.UserID)) ∧
    DeleteToken s none (DeleteToken s none db tokenType userID).1 tokenType userID =
      ((DeleteToken s none db tokenType userID).1, none) := by
  refine ⟨rfl, ?_, ?_⟩
  · intro r hr hmatch
    simp only [DeleteToken, dbDelete_none, List.mem_filter, userIDIs] at hr
    simp [hmatch.1, hmatch.2] at hr
  · simp only [DeleteToken, dbDelete_none, filter_not_idem]

/-- C9: a `DeleteAllToken` call that returns no error leaves no row owned by that user,
of whatever type, and the rows of every other user are the same rows as before. -/
theorem DeleteAllToken_frame {U : Type} [DecidableEq U] (s : tokenService U)
    (dbErr : Option Err) (db db' : List (Token U)) (userID : String)
    (h : DeleteAllToken s dbErr db userID = (db', none)) :
    (∀ r ∈ db', s.Parse userID ≠ some r.UserID) ∧
    (∀ v : U, s.Parse userID ≠ some v →
      db'.filter (fun r => decide (r.UserID = v)) =
        db.filter (fun r => decide (r.UserID = v))) ∧
    (∀ r : Token U, s.Parse userID ≠ some r.UserID → (r ∈ db' ↔ r ∈ db)) := by
  cases dbErr with
  | some e => simp [DeleteAllToken, dbDelete] at h
  | none =>
    simp only [DeleteAllToken, dbDelete_none, Prod.mk.injEq, and_true] at h
    subst h
    refine ⟨?_, ?_, ?_⟩
    · intro r hr
      simp only [List.mem_filter, userIDIs] at hr
      simpa using hr.2
    · intro v hv
      rw [List.filter_filter]
      congr 1
      funext r
      by_cases hrv : r.UserID = v
      · subst hrv
        simp [userIDIs, hv]
      · simp [hrv]
    · intro r hr
      simp [List.mem_filter, userIDIs, hr]

/-- C9, evaluated: the three rows of user `"u1"` go, the row of user `"u2"` stays. -/
theorem DeleteAllToken_frame_witness :
    DeleteAllToken demoService none demoStoreAll "u1" =
      ([{ Token := "b", UserID := 2, TokenType := "refresh", Expires := 6 }], none) ∧
    (∀ r ∈ [({ Token := "b", UserID := 2, TokenType := "refresh", Expires := 6 } : Token Nat)],
      demoService.Parse "u1" ≠ some r.UserID) :=
  ⟨by decide,
    (DeleteAllToken_frame demoService none demoStoreAll _ "u1" (by decide)).1⟩

/-- C7, as stated, fails: the presented string verifies as a refresh token of user
`"u1"` and the store holds the row with that value and user, but the query itself fails
and `GetTokenByUserID` returns the store error and no row. -/
theorem GetTokenByUserID_store_failure :
    demoService.VerifyToken "R" demoService.config.JWTSecret
        demoService.config.TokenTypeRefresh = Except.ok "u1" ∧
    (∃ r ∈ demoStoreR, r.Token = "R" ∧ demoService.Parse "u1" = some r.UserID) ∧
    GetTokenByUserID demoService (some (Err.other "connection refused")) demoStoreR "R" =
      Except.error (Err.other "connection refused") ∧
    ¬ ∃ row, GetTokenByUserID demoService (some (Err.other "connection refused"))
        demoStoreR "R" = Except.ok row := by
  refine ⟨by decide, ⟨_, List.mem_singleton.mpr rfl, by decide, by decide⟩, by decide, ?_⟩
  rintro ⟨row, h⟩
  have h2 : GetTokenByUserID demoService (some (Err.other "connection refused"))
      demoStoreR "R" = Except.error (Err.other "connection refused") := by decide
  rw [h2] at h
  cases h

/-- C7, amended: when the query does not fail, `GetTokenByUserID` returns a row exactly
when the string verifies as a refresh token of some user id and the store holds a row
with that token value and that user id; whatever the query outcome, a returned row is
such a row; a failed verification is returned without looking at the store; and a
failure of the query is returned as the error. -/
theorem GetTokenByUserID_spec {U : Type} [DecidableEq U] (s : tokenService U)
    (db : List (Token U)) (tokenStr : String) :
    ((∃ row, GetTokenByUserID s none db tokenStr = Except.ok row) ↔
      ∃ userID, s.VerifyToken tokenStr s.config.JWTSecret s.config.TokenTypeRefresh =
          Except.ok userID ∧
        ∃ r ∈ db, r.Token = tokenStr ∧ s.Parse userID = some r.UserID) ∧
    (∀ qErr row, GetTokenByUserID s qErr db tokenStr = Except.ok row →
      ∃ userID, s.VerifyToken tokenStr s.config.JWTSecret s.config.TokenTypeRefresh =
          Except.ok userID ∧
        row ∈ db ∧ row.Token = tokenStr ∧ s.Parse userID = some row.UserID) ∧
    (∀ err, s.VerifyToken tokenStr s.config.JWTSecret s.config.TokenTypeRefresh =
        Except.error err →
      ∀ qErr (db2 : List (Token U)), GetTokenByUserID s qErr db2 tokenStr = Except.error err) ∧
    (∀ userID e, s.VerifyToken tokenStr s.config.JWTSecret s.config.TokenTypeRefresh =
        Except.ok userID →
      GetTokenByUserID s (some e) db tokenStr = Except.error e) := by
  have hret : ∀ qErr row, GetTokenByUserID s qErr db tokenStr = Except.ok row →
      ∃ userID, s.VerifyToken tokenStr s.config.JWTSecret s.config.TokenTypeRefresh =
          Except.ok userID ∧
        row ∈ db ∧ row.Token = tokenStr ∧ s.Parse userID = some row.UserID := by
    intro qErr row h
    unfold GetTokenByUserID at h
    cases hv : s.VerifyToken tokenStr s.config.JWTSecret s.config.TokenTypeRefresh with
    | error err => simp [hv] at h
    | ok userID =>
      refine ⟨userID, rfl, ?_⟩
      simp only [hv, dbFirst] at h
      cases qErr with
      | some e => simp at h
      | none =>
        simp only at h
        cases hf : db.find? (fun r => decide (r.Token = tokenStr) && userIDIs s userID r) with
        | none => simp [hf] at h
        | some r =>
          simp only [hf, Except.ok.injEq] at h
          subst h
          have hp := List.find?_some hf
          have hm := List.mem_of_find?_eq_some hf
          simp only [userIDIs, Bool.and_eq_true, decide_eq_true_eq] at hp
          exact ⟨hm, hp.1, hp.2⟩
  refine ⟨⟨?_, ?_⟩, hret, ?_, ?_⟩
  · rintro ⟨row, h⟩
    obtain ⟨userID, hv, hm, ht, hp⟩ := hret none row h
    exact ⟨userID, hv, row, hm, ht, hp⟩
  · rintro ⟨userID, hv, r, hm, ht, hp⟩
    unfold GetTokenByUserID
    simp only [hv, dbFirst]
    cases hf : db.find? (fun r => decide (r.Token = tokenStr) && userIDIs s userID r) with
    | some r2 => exact ⟨r2, rfl⟩
    | none =>
      have := List.find?_eq_none.mp hf r hm
      simp [userIDIs, ht, hp] at this
  · intro err hv qErr db2
    simp [GetTokenByUserID, hv]
  · intro userID e hv
    simp [GetTokenByUserID, hv, dbFirst]

/-! ## Token issuer -/

/-- What `GenerateAuthTokens` does once both tokens are signed. -/
theorem GenerateAuthTokens_signed {U : Type} [DecidableEq U] (s : tokenService U)
    (t0 t1 t2 t3 : Int) (delErr insErr : Option Err) (db : List (Token U)) (user : User U)
    (accessToken refreshToken : String)
    (hA : GenerateToken s t1 (s.IDString user.ID)
      (Add t0 (wrap64 (Minute * s.config.JWTAccessExp))) s.config.TokenTypeAccess =
        Except.ok accessToken)
    (hR : GenerateToken s t3 (s.IDString user.ID)
      (Add t2 (wrap64 (wrap64 (Hour * 24) * s.config.JWTRefreshExp)))
        s.config.TokenTypeRefresh = Except.ok refreshToken) :
    GenerateAuthTokens s t0 t1 t2 t3 delErr insErr db user =
      match SaveToken s delErr insErr db refreshToken (s.IDString user.ID)
          s.config.TokenTypeRefresh
          (Add t2 (wrap64 (wrap64 (Hour * 24) * s.config.JWTRefreshExp))) with
      | (db1, Outcome.fail err) => (db1, Outcome.fail err)
      | (db1, Outcome.panic) => (db1, Outcome.panic)
      | (db1, Outcome.ok _) =>
        (db1, Outcome.ok
          { Access := { Token := accessToken,
                        Expires := Add t0 (wrap64 (Minute * s.config.JWTAccessExp)) },
            Refresh := { Token := refreshToken,
                         Expires :=
                           Add t2 (wrap64 (wrap64 (Hour * 24) * s.config.JWTRefreshExp)) } }) := by
  simp only [GenerateAuthTokens, hA, hR]

/-- C2, as stated, fails: the user holds the refresh row `"old"`, the delete succeeds and
the insert fails; `GenerateAuthTokens` returns the error, and the row `"old"` is gone. -/
theorem GenerateAuthTokens_insert_failure_loses_row :
    GenerateAuthTokens demoService 0 0 0 0 none (some (Err.other "insert failed"))
        demoStore demoUser =
      ([{ Token := "other", UserID := 2, TokenType := "refresh", Expires := 6 }],
        Outcome.fail (Err.other "insert failed")) ∧
    ({ Token := "old", UserID := 1, TokenType := "refresh", Expires := 5 } : Token Nat) ∈
      demoStore ∧
    ({ Token := "old", UserID := 1, TokenType := "refresh", Expires := 5 } : Token Nat) ∉
      (GenerateAuthTokens demoService 0 0 0 0 none (some (Err.other "insert failed"))
        demoStore demoUser).1 ∧
    (GenerateAuthTokens demoService 0 0 0 0 none (some (Err.other "insert failed"))
        demoStore demoUser).1 ≠ demoStore := by
  decide

/-- The ways `GenerateAuthTokens` can return an error, read back from the result. -/
theorem GenerateAuthTokens_fail_cases {U : Type} [DecidableEq U] (s : tokenService U)
    (t0 t1 t2 t3 : Int) (delErr insErr : Option Err) (db db' : List (Token U))
    (user : User U) (e : Err)
    (h : GenerateAuthTokens s t0 t1 t2 t3 delErr insErr db user = (db', Outcome.fail e)) :
    (db' = db ∧
      (GenerateToken s t1 (s.IDString user.ID)
          (Add t0 (wrap64 (Minute * s.config.JWTAccessExp))) s.config.TokenTypeAccess =
            Except.error e ∨
        GenerateToken s t3 (s.IDString user.ID)
          (Add t2 (wrap64 (wrap64 (Hour * 24) * s.config.JWTRefreshExp)))
            s.config.TokenTypeRefresh = Except.error e ∨
        delErr = some e)) ∨
    (delErr = none ∧ insErr = some e ∧
      db' = db.filter (fun r =>
        !(decide (r.TokenType = s.config.TokenTypeRefresh) &&
          userIDIs s (s.IDString user.ID) r))) := by
  cases hA : GenerateToken s t1 (s.IDString user.ID)
      (Add t0 (wrap64 (Minute * s.config.JWTAccessExp))) s.config.TokenTypeAccess with
  | error err =>
    simp only [GenerateAuthTokens, hA, Prod.mk.injEq, Outcome.fail.injEq] at h
    exact Or.inl ⟨h.1.symm, Or.inl (by rw [h.2])⟩
  | ok accessToken =>
    cases hR : GenerateToken s t3 (s.IDString user.ID)
        (Add t2 (wrap64 (wrap64 (Hour * 24) * s.config.JWTRefreshExp)))
        s.config.TokenTypeRefresh with
    | error err =>
      simp only [GenerateAuthTokens, hA, hR, Prod.mk.injEq, Outcome.fail.injEq] at h
      exact Or.inl ⟨h.1.symm, Or.inr (Or.inl (by rw [h.2]))⟩
    | ok refreshToken =>
      rw [GenerateAuthTokens_signed s t0 t1 t2 t3 delErr insErr db user _ _ hA hR,
        SaveToken_eq] at h
      cases delErr with
      | some e1 =>
        simp only [Prod.mk.injEq, Outcome.fail.injEq] at h
        exact Or.inl ⟨h.1.symm, Or.inr (Or.inr (by rw [h.2]))⟩
      | none =>
        cases hp : s.Parse (s.IDString user.ID) with
        | none => simp [hp] at h
        | some u =>
          cases insErr with
          | none => simp [hp] at h
          | some e2 =>
            simp only [hp, Prod.mk.injEq, Outcome.fail.injEq] at h
            refine Or.inr ⟨rfl, by rw [h.2], ?_⟩
            rw [← h.1]
            rfl

/-- C2, amended: when `GenerateAuthTokens` returns an error it returns no token pair.
If signing the access token fails, or signing the refresh token fails, or the delete
fails, the error is returned and the store is exactly as before.  If both tokens are
signed, the delete succeeds and the insert fails, the error is returned and the store is
the one before the call without the rows of type refresh of that user.  An error is
returned in no other way. -/
theorem GenerateAuthTokens_fail_store {U : Type} [DecidableEq U] (s : tokenService U)
    (t0 t1 t2 t3 : Int) (delErr insErr : Option Err) (db : List (Token U)) (user : User U) :
    (∀ e, GenerateToken s t1 (s.IDString user.ID)
        (Add t0 (wrap64 (Minute * s.config.JWTAccessExp))) s.config.TokenTypeAccess =
          Except.error e →
      GenerateAuthTokens s t0 t1 t2 t3 delErr insErr db user = (db, Outcome.fail e)) ∧
    (∀ accessToken e, GenerateToken s t1 (s.IDString user.ID)
        (Add t0 (wrap64 (Minute * s.config.JWTAccessExp))) s.config.TokenTypeAccess =
          Except.ok accessToken →
      GenerateToken s t3 (s.IDString user.ID)
        (Add t2 (wrap64 (wrap64 (Hour * 24) * s.config.JWTRefreshExp)))
          s.config.TokenTypeRefresh = Except.error e →
      GenerateAuthTokens s t0 t1 t2 t3 delErr insErr db user = (db, Outcome.fail e)) ∧
    (∀ accessToken refreshToken e, GenerateToken s t1 (s.IDString user.ID)
        (Add t0 (wrap64 (Minute * s.config.JWTAccessExp))) s.config.TokenTypeAccess =
          Except.ok accessToken →
      GenerateToken s t3 (s.IDString user.ID)
        (Add t2 (wrap64 (wrap64 (Hour * 24) * s.config.JWTRefreshExp)))
          s.config.TokenTypeRefresh = Except.ok refreshToken →
      delErr = some e →
      GenerateAuthTokens s t0 t1 t2 t3 delErr insErr db user = (db, Outcome.fail e)) ∧
    (∀ accessToken refreshToken u e, GenerateToken s t1 (s.IDString user.ID)
        (Add t0 (wrap64 (Minute * s.config.JWTAccessExp))) s.config.TokenTypeAccess =
          Except.ok accessToken →
      GenerateToken s t3 (s.IDString user.ID)
        (Add t2 (wrap64 (wrap64 (Hour * 24) * s.config.JWTRefreshExp)))
          s.config.TokenTypeRefresh = Except.ok refreshToken →
      s.Parse (s.IDString user.ID) = some u →
      delErr = none → insErr = some e →
      GenerateAuthTokens s t0 t1 t2 t3 delErr insErr db user =
        (db.filter (fun r =>
            !(decide (r.TokenType = s.config.TokenTypeRefresh) &&
              userIDIs s (s.IDString user.ID) r)),
          Outcome.fail e)) ∧
    (∀ db' e, GenerateAuthTokens s t0 t1 t2 t3 delErr insErr db user = (db', Outcome.fail e) →
      (db' = db ∧
        (GenerateToken s t1 (s.IDString user.ID)
            (Add t0 (wrap64 (Minute * s.config.JWTAccessExp))) s.config.TokenTypeAccess =
              Except.error e ∨
          GenerateToken s t3 (s.IDString user.ID)
            (Add t2 (wrap64 (wrap64 (Hour * 24) * s.config.JWTRefreshExp)))
              s.config.TokenTypeRefresh = Except.error e ∨
          delErr = some e)) ∨
      (delErr = none ∧ insErr = some e ∧
        db' = db.filter (fun r =>
          !(decide (r.TokenType = s.config.TokenTypeRefresh) &&
            userIDIs s (s.IDString user.ID) r)))) := by
  refine ⟨?_, ?_, ?_, ?_, ?_⟩
  · intro e hA
    simp only [GenerateAuthTokens, hA]
  · intro accessToken e hA hR
    simp only [GenerateAuthTokens, hA, hR]
  · intro accessToken refreshToken e hA hR hdel
    subst hdel
    rw [GenerateAuthTokens_signed s t0 t1 t2 t3 _ insErr db user _ _ hA hR, SaveToken_eq]
  · intro accessToken refreshToken u e hA hR hp hdel hins
    subst hdel
    subst hins
    rw [GenerateAuthTokens_signed s t0 t1 t2 t3 _ _ db user _ _ hA hR, SaveToken_eq]
    simp only [hp]
    rfl
  · intro db' e h
    exact GenerateAuthTokens_fail_cases s t0 t1 t2 t3 delErr insErr db db' user e h

/-- C2 amended, evaluated at the insert failure that loses the row `"old"`. -/
theorem GenerateAuthTokens_fail_store_witness :
    GenerateAuthTokens demoService 0 0 0 0 none (some (Err.other "insert failed"))
        demoStore demoUser =
      (demoStore.filter (fun r =>
          !(decide (r.TokenType = demoService.config.TokenTypeRefresh) &&
            userIDIs demoService (demoService.IDString demoUser.ID) r)),
        Outcome.fail (Err.other "insert failed")) ∧
    demoStore.filter (fun r =>
        !(decide (r.TokenType = demoService.config.TokenTypeRefresh) &&
          userIDIs demoService (demoService.IDString demoUser.ID) r)) =
      [{ Token := "other", UserID := 2, TokenType := "refresh", Expires := 6 }] :=
  ⟨(GenerateAuthTokens_fail_store demoService 0 0 0 0 none
      (some (Err.other "insert failed")) demoStore demoUser).2.2.2.1
      "A" "R" 1 (Err.other "insert failed") (by decide) (by decide) (by decide) rfl rfl,
    by decide⟩

/-- C3, as stated, fails: on a store that already holds a row of the access type
carrying the value `"A"`, `GenerateAuthTokens` succeeds, returns `"A"` as the access
token, and the store afterwards still holds that row. -/
theorem GenerateAuthTokens_ok_keeps_access_row :
    demoService.Parse (demoService.IDString demoUser.ID) = some demoUser.ID ∧
    GenerateAuthTokens demoService 0 0 0 0 none none
        [{ Token := "A", UserID := 2, TokenType := "access", Expires := 1 }] demoUser =
      ([{ Token := "A", UserID := 2, TokenType := "access", Expires := 1 },
        { Token := "R", UserID := 1, TokenType := "refresh", Expires := 2592000000000000 }],
        Outcome.ok { Access := { Token := "A", Expires := 1800000000000 },
                     Refresh := { Token := "R", Expires := 2592000000000000 } }) ∧
    (∃ r ∈ (GenerateAuthTokens demoService 0 0 0 0 none none
        [{ Token := "A", UserID := 2, TokenType := "access", Expires := 1 }] demoUser).1,
      r.TokenType = demoService.config.TokenTypeAccess ∧ r.Token = "A") := by
  refine ⟨by decide, by decide, ?_⟩
  exact ⟨{ Token := "A", UserID := 2, TokenType := "access", Expires := 1 },
    by decide, by decide, by decide⟩

/-- C3, amended: when `GenerateAuthTokens` succeeds it returns the access and the refresh
token, each the signature of its claims (subject, issued-at, expiry, type) and each with
its expiry; the store afterwards is the store before without the earlier rows of type
refresh of that user, followed by one new row, which has type refresh, belongs to the
user and carries the returned refresh token and refresh expiry; that row is the only row
of (user, refresh) and the only row written, so the call stores no access token: a row
with the access type or the access token value is in the store afterwards only if it was
there before, unless the refresh row itself carries that type or value. -/
theorem GenerateAuthTokens_ok {U : Type} [DecidableEq U] (s : tokenService U)
    (t0 t1 t2 t3 : Int) (delErr insErr : Option Err) (db db' : List (Token U))
    (user : User U) (tokens : Tokens)
    (hid : s.Parse (s.IDString user.ID) = some user.ID)
    (h : GenerateAuthTokens s t0 t1 t2 t3 delErr insErr db user = (db', Outcome.ok tokens)) :
    (tokens.Access.Expires = Add t0 (wrap64 (Minute * s.config.JWTAccessExp)) ∧
      s.SignedString s.config.JWTSecret
        { sub := s.IDString user.ID, iat := Unix t1, exp := Unix tokens.Access.Expires,
          type := s.config.TokenTypeAccess } = Except.ok tokens.Access.Token) ∧
    (tokens.Refresh.Expires =
        Add t2 (wrap64 (wrap64 (Hour * 24) * s.config.JWTRefreshExp)) ∧
      s.SignedString s.config.JWTSecret
        { sub := s.IDString user.ID, iat := Unix t3, exp := Unix tokens.Refresh.Expires,
          type := s.config.TokenTypeRefresh } = Except.ok tokens.Refresh.Token) ∧
    db' = db.filter (fun r =>
        !(decide (r.TokenType = s.config.TokenTypeRefresh) &&
          userIDIs s (s.IDString user.ID) r)) ++
      [{ Token := tokens.Refresh.Token, UserID := user.ID,
         TokenType := s.config.TokenTypeRefresh, Expires := tokens.Refresh.Expires }] ∧
    db'.filter (fun r =>
        decide (r.UserID = user.ID ∧ r.TokenType = s.config.TokenTypeRefresh)) =
      [{ Token := tokens.Refresh.Token, UserID := user.ID,
         TokenType := s.config.TokenTypeRefresh, Expires := tokens.Refresh.Expires }] ∧
    (∀ r ∈ db', r ∉ db →
      r = { Token := tokens.Refresh.Token, UserID := user.ID,
            TokenType := s.config.TokenTypeRefresh, Expires := tokens.Refresh.Expires }) ∧
    (s.config.TokenTypeAccess ≠ s.config.TokenTypeRefresh →
      ∀ r ∈ db', r.TokenType = s.config.TokenTypeAccess → r ∈ db) ∧
    (tokens.Access.Token ≠ tokens.Refresh.Token →
      ∀ r ∈ db', r.Token = tokens.Access.Token → r ∈ db) ∧
    (s.config.TokenTypeAccess ≠ s.config.TokenTypeRefresh →
      (∀ r ∈ db, r.TokenType ≠ s.config.TokenTypeAccess) →
      ∀ r ∈ db', r.TokenType ≠ s.config.TokenTypeAccess) ∧
    (tokens.Access.Token ≠ tokens.Refresh.Token →
      (∀ r ∈ db, r.Token ≠ tokens.Access.Token) →
      ∀ r ∈ db', r.Token ≠ tokens.Access.Token) := by
  cases hA : GenerateToken s t1 (s.IDString user.ID)
      (Add t0 (wrap64 (Minute * s.config.JWTAccessExp))) s.config.TokenTypeAccess with
  | error err => simp [GenerateAuthTokens, hA] at h
  | ok accessToken =>
    cases hR : GenerateToken s t3 (s.IDString user.ID)
        (Add t2 (wrap64 (wrap64 (Hour * 24) * s.config.JWTRefreshExp)))
        s.config.TokenTypeRefresh with
    | error err => simp [GenerateAuthTokens, hA, hR] at h
    | ok refreshToken =>
      rw [GenerateAuthTokens_signed s t0 t1 t2 t3 delErr insErr db user _ _ hA hR] at h
      cases hS : SaveToken s delErr insErr db refreshToken (s.IDString user.ID)
          s.config.TokenTypeRefresh
          (Add t2 (wrap64 (wrap64 (Hour * 24) * s.config.JWTRefreshExp))) with
      | mk db1 out =>
        cases out with
        | fail err => simp [hS] at h
        | panic => simp [hS] at h
        | ok x =>
          simp only [hS, Prod.mk.injEq, Outcome.ok.injEq] at h
          obtain ⟨hdb, htok⟩ := h
          subst hdb
          subst htok
          have hform := SaveToken_ok_form s delErr insErr db db1 refreshToken
            (s.IDString user.ID) s.config.TokenTypeRefresh
            (Add t2 (wrap64 (wrap64 (Hour * 24) * s.config.JWTRefreshExp))) user.ID hid hS
          have hone : db1.filter (fun r =>
              decide (r.UserID = user.ID ∧ r.TokenType = s.config.TokenTypeRefresh)) =
              [{ Token := refreshToken, UserID := user.ID,
                 TokenType := s.config.TokenTypeRefresh,
                 Expires :=
                   Add t2 (wrap64 (wrap64 (Hour * 24) * s.config.JWTRefreshExp)) }] := by
            rw [hform, List.filter_append,
              DeleteToken_none_filter s db s.config.TokenTypeRefresh (s.IDString user.ID)
                user.ID hid]
            simp
          have hmem : ∀ r ∈ db1, r ∈ db ∨
              r = { Token := refreshToken, UserID := user.ID,
                    TokenType := s.config.TokenTypeRefresh,
                    Expires :=
                      Add t2 (wrap64 (wrap64 (Hour * 24) * s.config.JWTRefreshExp)) } := by
            intro r hr
            rw [hform] at hr
            rcases List.mem_append.mp hr with hr1 | hr2
            · simp only [DeleteToken, dbDelete_none, List.mem_filter] at hr1
              exact Or.inl hr1.1
            · exact Or.inr (List.mem_singleton.mp hr2)
          refine ⟨⟨rfl, hA⟩, ⟨rfl, hR⟩, hform, hone, ?_, ?_, ?_, ?_, ?_⟩
          · intro r hr hnot
            rcases hmem r hr with h1 | h2
            · exact absurd h1 hnot
            · exact h2
          · intro hne r hr hty
            rcases hmem r hr with h1 | h2
            · exact h1
            · rw [h2] at hty
              exact absurd hty.symm hne
          · intro hne r hr htok
            rcases hmem r hr with h1 | h2
            · exact h1
            · rw [h2] at htok
              exact absurd htok.symm hne
          · intro hne hold r hr
            rcases hmem r hr with h1 | h2
            · exact hold r h1
            · rw [h2]
              exact fun hc => hne hc.symm
          · intro hne hold r hr
            rcases hmem r hr with h1 | h2
            · exact hold r h1
            · rw [h2]
              exact fun hc => hne hc.symm

/-- C3 amended, evaluated: issuing tokens for the demo user over a store holding an older
refresh row of that user and a row of another user. -/
theorem GenerateAuthTokens_ok_witness :
    GenerateAuthTokens demoService 0 0 0 0 none none demoStore demoUser =
      ([{ Token := "other", UserID := 2, TokenType := "refresh", Expires := 6 },
        { Token := "R", UserID := 1, TokenType := "refresh", Expires := 2592000000000000 }],
        Outcome.ok { Access := { Token := "A", Expires := 1800000000000 },
                     Refresh := { Token := "R", Expires := 2592000000000000 } }) ∧
    List.filter (fun r : Token Nat =>
        decide (r.UserID = demoUser.ID ∧ r.TokenType = demoService.config.TokenTypeRefresh))
      [{ Token := "other", UserID := 2, TokenType := "refresh", Expires := 6 },
       { Token := "R", UserID := 1, TokenType := "refresh", Expires := 2592000000000000 }] =
      [{ Token := "R", UserID := 1, TokenType := "refresh", Expires := 2592000000000000 }] :=
  ⟨by decide,
    (GenerateAuthTokens_ok demoService 0 0 0 0 none none demoStore
      [{ Token := "other", UserID := 2, TokenType := "refresh", Expires := 6 },
       { Token := "R", UserID := 1, TokenType := "refresh", Expires := 2592000000000000 }]
      demoUser { Access := { Token := "A", Expires := 1800000000000 },
                 Refresh := { Token := "R", Expires := 2592000000000000 } }
      (by decide) (by decide)).2.2.2.1⟩

/-! ## Google callback and forgot password -/

/-- C4: when the echoed state differs from the stored `oauth_state` value, whatever the
authorization code and whatever the collaborators would do, `GoogleCallback` returns the
Unauthorized (401) error, calls no collaborator (no code exchange, no user creation) and
leaves the token store as it was. -/
theorem GoogleCallback_state_mismatch {U G : Type} (a : AuthController U G)
    (req : CallbackRequest) (db : List (Token U)) (h : req.state ≠ req.storedState) :
    GoogleCallback a req db =
      (db, [], HandlerResult.error (Err.fiber 401 "States don\x27t Match!")) ∧
    isUnauthorized (GoogleCallback a req db).2.2 = true := by
  have hres : GoogleCallback a req db =
      (db, [], HandlerResult.error (Err.fiber 401 "States don\x27t Match!")) := by
    unfold GoogleCallback
    rw [if_pos h]
    rfl
  refine ⟨hres, ?_⟩
  rw [hres]
  rfl

/-- C4, evaluated at the states `"abc"` and `"abd"`. -/
theorem GoogleCallback_state_mismatch_witness :
    ("abc" : String) ≠ "abd" ∧
    GoogleCallback demoController { state := "abc", storedState := "abd", code := "c" }
        demoStore =
      (demoStore, [], HandlerResult.error (Err.fiber 401 "States don\x27t Match!")) :=
  ⟨by decide,
    (GoogleCallback_state_mismatch demoController
      { state := "abc", storedState := "abd", code := "c" } demoStore (by decide)).1⟩

/-- C5, as stated, fails: the state matches, the code exchange fails, and the callback
returns the error of the exchange, which is not the Unauthorized failure returned on a
state mismatch. -/
theorem GoogleCallback_exchange_failure_not_unauthorized :
    demoController.Exchange "c" = Except.error (Err.other "oauth2: cannot fetch token") ∧
    GoogleCallback demoController { state := "n", storedState := "n", code := "c" }
        demoStore =
      (demoStore, [Call.Exchange "c"],
        HandlerResult.error (Err.other "oauth2: cannot fetch token")) ∧
    isUnauthorized (GoogleCallback demoController
        { state := "n", storedState := "n", code := "c" } demoStore).2.2 = false ∧
    isUnauthorized (GoogleCallback demoController
        { state := "n", storedState := "m", code := "c" } demoStore).2.2 = true := by
  decide

/-- C5, amended: when the state matches and the code exchange fails, `GoogleCallback`
returns the error of the exchange unchanged, calls no collaborator after the exchange
and leaves the token store as it was (no tokens are issued). -/
theorem GoogleCallback_exchange_failure {U G : Type} (a : AuthController U G)
    (req : CallbackRequest) (db : List (Token U)) (err : Err)
    (hs : req.state = req.storedState) (hx : a.Exchange req.code = Except.error err) :
    GoogleCallback a req db = (db, [Call.Exchange req.code], HandlerResult.error err) := by
  unfold GoogleCallback
  have hn : ¬ (req.state ≠ req.storedState) := fun hne => hne hs
  rw [if_neg hn, hx]

/-- C5 amended, evaluated at the failing exchange of the demo controller. -/
theorem GoogleCallback_exchange_failure_witness :
    GoogleCallback demoController { state := "n", storedState := "n", code := "c" }
        demoStore =
      (demoStore, [Call.Exchange "c"],
        HandlerResult.error (Err.other "oauth2: cannot fetch token")) :=
  GoogleCallback_exchange_failure demoController
    { state := "n", storedState := "n", code := "c" } demoStore
    (Err.other "oauth2: cannot fetch token") (by decide) (by decide)

/-- C6, as stated, fails: of two well-formed requests, the one whose email resolves is
answered with 200, the one whose email does not resolve with the not-found failure of
the user collaborator. -/
theorem ForgotPassword_reveals_unknown_email :
    demoService.Validate { Email := "a@x.com" } = none ∧
    demoService.Validate { Email := "b@x.com" } = none ∧
    demoService.GetUserByEmail "a@x.com" = Except.ok demoUser ∧
    demoService.GetUserByEmail "b@x.com" = Except.error (Err.fiber 404 "User not found") ∧
    (ForgotPassword demoController (Except.ok { Email := "a@x.com" }) []).2.2 =
      HandlerResult.response 200
        (Reply.Common 200 "success"
          "A password reset link has been sent to your email address.") ∧
    (ForgotPassword demoController (Except.ok { Email := "b@x.com" }) []).2.2 =
      HandlerResult.error (Err.fiber 404 "User not found") ∧
    (ForgotPassword demoController (Except.ok { Email := "a@x.com" }) []).2.2 ≠
      (ForgotPassword demoController (Except.ok { Email := "b@x.com" }) []).2.2 := by
  decide

/-- C6, amended: for a well-formed request, when the email does not resolve
`ForgotPassword` returns the failure of the user collaborator unchanged, stores nothing
and sends no email; when the email resolves and the token is generated and the email is
sent, it answers 200 with the fixed success message. -/
theorem ForgotPassword_outcomes {U G : Type} [DecidableEq U] (a : AuthController U G)
    (s : tokenService U) (o : Surroundings) (req : auth_request_dto.ForgotPassword)
    (db : List (Token U)) (hts : a.TokenService = NewTokenService s o)
    (hv : s.Validate req = none) :
    (∀ e, s.GetUserByEmail req.Email = Except.error e →
      ForgotPassword a (Except.ok req) db = (db, [], HandlerResult.error e)) ∧
    (∀ user db1 token, s.GetUserByEmail req.Email = Except.ok user →
      a.TokenService.GenerateResetPasswordToken db req = (db1, Outcome.ok token) →
      a.SendResetPasswordEmail req.Email token = none →
      ForgotPassword a (Except.ok req) db =
        (db1, [Call.SendResetPasswordEmail req.Email token],
          HandlerResult.response 200
            (Reply.Common 200 "success"
              "A password reset link has been sent to your email address."))) := by
  constructor
  · intro e he
    have hg : a.TokenService.GenerateResetPasswordToken db req = (db, Outcome.fail e) := by
      rw [hts]
      simp only [NewTokenService, GenerateResetPasswordToken, hv, he]
    simp only [ForgotPassword, hg]
  · intro user db1 token _ hg hsend
    simp only [ForgotPassword, hg, hsend]
    rfl

/-- C6 amended, evaluated at the unregistered address `b@x.com`. -/
theorem ForgotPassword_outcomes_witness :
    ForgotPassword demoController (Except.ok { Email := "b@x.com" }) demoStore =
      (demoStore, [], HandlerResult.error (Err.fiber 404 "User not found")) :=
  (ForgotPassword_outcomes demoController demoService demoSurroundings
    { Email := "b@x.com" } demoStore rfl (by decide)).1
    (Err.fiber 404 "User not found") (by decide)

/-! ## Two concurrent issuances -/

/-- C10, as stated, fails: two `SaveToken` calls for the same (user, type) whose deletes
both run before their inserts leave two rows for that pair. -/
theorem SaveToken_interleaved_two_rows :
    [false, true, false, true] ∈ schedules ∧
    runInterleaved [false, true, false, true]
        (SaveTokenSteps demoService "t1" "u1" "refresh" 5)
        (SaveTokenSteps demoService "t2" "u1" "refresh" 6) demoStore =
      [{ Token := "other", UserID := 2, TokenType := "refresh", Expires := 6 },
       { Token := "t1", UserID := 1, TokenType := "refresh", Expires := 5 },
       { Token := "t2", UserID := 1, TokenType := "refresh", Expires := 6 }] ∧
    ((runInterleaved [false, true, false, true]
        (SaveTokenSteps demoService "t1" "u1" "refresh" 5)
        (SaveTokenSteps demoService "t2" "u1" "refresh" 6) demoStore).filter
      (fun r => decide (r.UserID = 1 ∧ r.TokenType = "refresh"))).length = 2 := by
  decide

/-- C10, amended: for two `SaveToken` calls for the same valid (user id, type) whose
statements all succeed, the store ends with exactly one row for the pair when one call
runs wholly before the other, and with two rows in each of the four interleavings in
which both deletes run before both inserts. -/
theorem SaveToken_interleaved {U : Type} [DecidableEq U] (s : tokenService U)
    (db : List (Token U)) (token1 token2 userID tokenType : String) (expires1 expires2 : Int)
    (u : U) (sch : List Bool) (hu : s.Parse userID = some u) (hs : sch ∈ schedules) :
    ((runInterleaved sch (SaveTokenSteps s token1 userID tokenType expires1)
        (SaveTokenSteps s token2 userID tokenType expires2) db).filter
      (fun r => decide (r.UserID = u ∧ r.TokenType = tokenType))).length =
      if isSerial sch then 1 else 2 := by
  have hdel : ∀ l : List (Token U), (DeleteToken s none l tokenType userID).1 =
      l.filter (fun r => !decide (r.UserID = u ∧ r.TokenType = tokenType)) :=
    fun l => DeleteToken_none_eq s l tokenType userID u hu
  have hgone : ∀ l : List (Token U),
      (l.filter (fun r => !decide (r.UserID = u ∧ r.TokenType = tokenType))).filter
        (fun r => decide (r.UserID = u ∧ r.TokenType = tokenType)) = [] :=
    fun l => filter_not_filter _ l
  simp only [schedules, List.mem_cons, List.mem_singleton, List.not_mem_nil, or_false] at hs
  rcases hs with rfl | rfl | rfl | rfl | rfl | rfl <;>
    simp [runInterleaved, SaveTokenSteps, hu, hdel, dbCreate, isSerial, List.filter_append,
      hgone]

/-- C10 amended, evaluated at the serial schedule in which the first call runs first. -/
theorem SaveToken_interleaved_witness :
    demoService.Parse "u1" = some 1 ∧
    [false, false, true, true] ∈ schedules ∧
    ((runInterleaved [false, false, true, true]
        (SaveTokenSteps demoService "t1" "u1" "refresh" 5)
        (SaveTokenSteps demoService "t2" "u1" "refresh" 6) demoStore).filter
      (fun r => decide (r.UserID = 1 ∧ r.TokenType = "refresh"))).length =
      if isSerial [false, false, true, true] then 1 else 2 :=
  ⟨by decide, by decide,
    SaveToken_interleaved demoService demoStore "t1" "t2" "u1" "refresh" 5 6 1
      [false, false, true, true] (by decide) (by decide)⟩

/-! ## Frame of `SaveToken` -/

/-- C11: a `SaveToken` call, however it ends (no error, an error of the delete or of the
insert, or a panic), leaves every row of another (user id, type) pair in place and
unchanged: the rows outside the pair of the call are the same list before and after, so
the rows of any other pair, such as the refresh row of a user who is issued a reset or
verify token, are untouched. -/
theorem SaveToken_frame {U : Type} [DecidableEq U] (s : tokenService U)
    (delErr insErr : Option Err) (db : List (Token U)) (token userID tokenType : String)
    (expires : Int) :
    ((SaveToken s delErr insErr db token userID tokenType expires).1.filter
        (fun r => !(decide (r.TokenType = tokenType) && userIDIs s userID r)) =
      db.filter (fun r => !(decide (r.TokenType = tokenType) && userIDIs s userID r))) ∧
    (∀ r : Token U, ¬ (r.TokenType = tokenType ∧ s.Parse userID = some r.UserID) →
      (r ∈ (SaveToken s delErr insErr db token userID tokenType expires).1 ↔ r ∈ db)) ∧
    (∀ (v : U) (ty : String), ¬ (ty = tokenType ∧ s.Parse userID = some v) →
      (SaveToken s delErr insErr db token userID tokenType expires).1.filter
          (fun r => decide (r.UserID = v ∧ r.TokenType = ty)) =
        db.filter (fun r => decide (r.UserID = v ∧ r.TokenType = ty))) := by
  have hkey : (SaveToken s delErr insErr db token userID tokenType expires).1.filter
        (fun r => !(decide (r.TokenType = tokenType) && userIDIs s userID r)) =
      db.filter (fun r => !(decide (r.TokenType = tokenType) && userIDIs s userID r)) := by
    rw [SaveToken_eq]
    cases delErr with
    | some e => rfl
    | none =>
      cases hp : s.Parse userID with
      | none =>
        simp only [DeleteToken, dbDelete_none]
        exact filter_not_idem _ db
      | some u =>
        cases insErr with
        | some e =>
          simp only [DeleteToken, dbDelete_none]
          exact filter_not_idem _ db
        | none =>
          simp only [DeleteToken, dbDelete_none, List.filter_append]
          rw [filter_not_idem]
          simp [userIDIs, hp]
  refine ⟨hkey, ?_, ?_⟩
  · intro r hr
    have hnot : (!(decide (r.TokenType = tokenType) && userIDIs s userID r)) = true := by
      simp only [userIDIs, Bool.not_eq_true', Bool.and_eq_false_iff, decide_eq_false_iff_not]
      by_cases h1 : r.TokenType = tokenType
      · exact Or.inr (fun h2 => hr ⟨h1, h2⟩)
      · exact Or.inl h1
    constructor
    · intro hm
      have hf : r ∈ (SaveToken s delErr insErr db token userID tokenType expires).1.filter
          (fun r => !(decide (r.TokenType = tokenType) && userIDIs s userID r)) :=
        List.mem_filter.mpr ⟨hm, hnot⟩
      rw [hkey] at hf
      exact (List.mem_filter.mp hf).1
    · intro hm
      have hf : r ∈ db.filter
          (fun r => !(decide (r.TokenType = tokenType) && userIDIs s userID r)) :=
        List.mem_filter.mpr ⟨hm, hnot⟩
      rw [← hkey] at hf
      exact (List.mem_filter.mp hf).1
  · intro v ty hvt
    have hsub : ∀ l : List (Token U),
        l.filter (fun r => decide (r.UserID = v ∧ r.TokenType = ty)) =
          (l.filter (fun r => !(decide (r.TokenType = tokenType) && userIDIs s userID r))).filter
            (fun r => decide (r.UserID = v ∧ r.TokenType = ty)) := by
      intro l
      rw [List.filter_filter]
      congr 1
      funext r
      by_cases hq : r.UserID = v ∧ r.TokenType = ty
      · have hp2 : ¬ (r.TokenType = tokenType ∧ s.Parse userID = some r.UserID) := by
          rintro ⟨h1, h2⟩
          exact hvt ⟨hq.2.symm.trans h1, by rw [h2, hq.1]⟩
        have hnot : (decide (r.TokenType = tokenType) && userIDIs s userID r) = false := by
          simp only [userIDIs, Bool.and_eq_false_iff, decide_eq_false_iff_not]
          by_cases h1 : r.TokenType = tokenType
          · exact Or.inr (fun h2 => hp2 ⟨h1, h2⟩)
          · exact Or.inl h1
        simp only [hnot]
        simp [hq]
      · simp [hq]
    rw [hsub, hkey, ← hsub]

/-- C11, evaluated: issuing a reset-password token for user `"u1"`, with the insert
failing after the delete, removes the old reset row and keeps the refresh row of that
user and the row of user `"u2"`. -/
theorem SaveToken_frame_witness :
    SaveToken demoService none (some (Err.other "insert failed")) demoStoreAll
        "x" "u1" "resetPassword" 3 =
      ([{ Token := "a", UserID := 1, TokenType := "refresh", Expires := 5 },
        { Token := "b", UserID := 2, TokenType := "refresh", Expires := 6 },
        { Token := "d", UserID := 1, TokenType := "verifyEmail", Expires := 8 }],
        Outcome.fail (Err.other "insert failed")) ∧
    (SaveToken demoService none (some (Err.other "insert failed")) demoStoreAll
        "x" "u1" "resetPassword" 3).1.filter
        (fun r => decide (r.UserID = 1 ∧ r.TokenType = "refresh")) =
      demoStoreAll.filter (fun r => decide (r.UserID = 1 ∧ r.TokenType = "refresh")) :=
  ⟨by decide,
    (SaveToken_frame demoService none (some (Err.other "insert failed")) demoStoreAll
      "x" "u1" "resetPassword" 3).2.2 1 "refresh" (by decide)⟩

end NimeStream
